import Mathlib

/-!
A shallow embedding of the result-shaping pipeline of `src/app.py`
(a filtered search client for a government procurement API), together
with proofs of the specified properties.

Conventions of the embedding:
* Decoded JSON values are the inductive `Json`; Python dictionaries are
  association lists of string keys (keys unique in practice; lookups take
  the first match, as a dictionary would).
* Python `dict.get` on a non-dictionary raises `AttributeError`; such
  accesses are modelled as `Option`-valued helpers returning `none` for
  the raised exception, which the pipeline converts to its handled form.
* Machine floats produced by `float(...)` / `pd.to_numeric` on pure digit
  strings are modelled as exact naturals.
* The HTTP transport is an oracle mapping the outgoing parameter list to
  an outcome; `requests.get` raising is the `exn` outcome, and a body on
  which `resp.json()` raises is modelled as `none`.
-/

/-- A decoded JSON value (Python object tree). `num` covers the integral
numbers the API and the pipeline actually handle. -/
inductive Json where
  | null : Json
  | bool : Bool → Json
  | num : Int → Json
  | str : String → Json
  | arr : List Json → Json
  | obj : List (String × Json) → Json

/-- Python truthiness on a decoded JSON value: `not x` is true exactly on
`None`, `False`, `0`, `""`, `[]`, `{}`. -/
def jsonFalsy : Json → Bool
  | Json.null => true
  | Json.bool b => !b
  | Json.num n => n == 0
  | Json.str s => s == ""
  | Json.arr xs => xs.isEmpty
  | Json.obj fs => fs.isEmpty

/-- Python `x.get(k, d)`: `some` of the looked-up value (or the default) when
`x` is a dictionary, `none` when `x` is not a dictionary (an
`AttributeError` is raised). -/
def dict_get (j : Json) (k : String) (d : Json) : Option Json :=
  match j with
  | Json.obj fields => some ((fields.lookup k).getD d)
  | _ => none

/-- `safe_get_items` of `src/app.py`: pull the item list out of
`response.body.items`, tolerating every envelope shape; the enclosing
`try/except` turns every raised exception into `[]`. -/
def safe_get_items (json_data : Json) : List Json :=
  match dict_get json_data "response" (Json.obj []) with
  | none => []
  | some response =>
    match dict_get response "body" (Json.obj []) with
    | none => []
    | some body =>
      match body with
      | Json.obj bf =>
        let items := (bf.lookup "items").getD Json.null
        if jsonFalsy items then []
        else
          match items with
          | Json.arr xs => xs
          | Json.obj itf =>
            (match itf.lookup "item" with
             | some (Json.arr xs) => xs
             | some (Json.obj g) => [Json.obj g]
             | _ => [])
          | _ => []
      | _ => []

/-- Modelled from the spec (§4.1) for comparison with `safe_get_items`:
descend `response → body → items`; absent or empty/false-like gives `[]`;
a list is returned verbatim; a mapping is entered at its `item` key, a
list there is returned, a single mapping is wrapped; every other shape,
and any exception during traversal, gives `[]`. -/
def extract_items_spec (j : Json) : List Json :=
  match j with
  | Json.obj f1 =>
    (match f1.lookup "response" with
     | some (Json.obj f2) =>
       (match f2.lookup "body" with
        | some (Json.obj f3) =>
          (match f3.lookup "items" with
           | some items =>
             if jsonFalsy items then []
             else
               match items with
               | Json.arr xs => xs
               | Json.obj f4 =>
                 (match f4.lookup "item" with
                  | some (Json.arr xs) => xs
                  | some (Json.obj g) => [Json.obj g]
                  | _ => [])
               | _ => []
           | none => [])
        | some _ => []
        | none => [])
     | some _ => []
     | none => [])
  | _ => []

/-- Python `str.strip()` on the character list: drop whitespace from both
ends. -/
def stripChars (l : List Char) : List Char :=
  ((l.dropWhile Char.isWhitespace).reverse.dropWhile Char.isWhitespace).reverse

/-- Python `str(v).strip()` for a string `v`. -/
def pyStrip (s : String) : String := (stripChars s.toList).asString

/-- The digit characters of a string, in order: what survives
`re.sub(r"[^\d]", "", s)`. -/
def digitsOf (s : String) : List Char := s.toList.filter Char.isDigit

/-- The number denoted by a list of decimal digit characters (the value
`float`/`pd.to_numeric` gives a pure digit string, taken exactly). -/
def natOfDigits (ds : List Char) : Nat :=
  ds.foldl (fun a c => 10 * a + (c.toNat - 48)) 0

/-- `parse_money` of `src/app.py`: `None` in, or nothing left after
stripping, gives `None`; otherwise the number of the remaining digit
string. -/
def parse_money (val : Option String) : Option Nat :=
  match val with
  | none => none
  | some v =>
    let s := stripChars v.toList
    if s = [] then none
    else
      let d := s.filter Char.isDigit
      if d = [] then none
      else some (natOfDigits d)


/-- The apostrophe character used by the Python repr of strings. -/
def quoteChar : Char := Char.ofNat 39

mutual
/-- Python `repr()` of a decoded JSON value, as it appears inside
formatted log strings. -/
def pyRepr : Json → String
  | Json.null => "None"
  | Json.bool true => "True"
  | Json.bool false => "False"
  | Json.num n => toString n
  | Json.str s => quoteChar.toString ++ s ++ quoteChar.toString
  | Json.arr xs => "[" ++ pyReprSeq xs ++ "]"
  | Json.obj fs => "\x7b" ++ pyReprFields fs ++ "\x7d"

/-- Comma-separated reprs of the elements of a Python list. -/
def pyReprSeq : List Json → String
  | [] => ""
  | [x] => pyRepr x
  | x :: xs => pyRepr x ++ ", " ++ pyReprSeq xs

/-- Comma-separated `key: value` reprs of the entries of a Python dict. -/
def pyReprFields : List (String × Json) → String
  | [] => ""
  | [(k, v)] => quoteChar.toString ++ k ++ quoteChar.toString ++ ": " ++ pyRepr v
  | (k, v) :: fs =>
    quoteChar.toString ++ k ++ quoteChar.toString ++ ": " ++ pyRepr v ++ ", " ++ pyReprFields fs
end

/-- Python `str()` of a decoded JSON value: the string itself for a string,
the repr otherwise (this is what an f-string interpolation produces). -/
def pyStr : Json → String
  | Json.str s => s
  | j => pyRepr j

/-- One flattened tabular record, as produced by `pd.json_normalize` from
one item object: its field names and values. -/
abbrev BidRecord := List (String × Json)

/-- A displayed row: localized column labels paired with cell values. -/
abbrev DisplayRow := List (String × Json)

/-- `k in df.columns` for the frame built from `records`: some record
carries the field. -/
def has_column (records : List BidRecord) (k : String) : Bool :=
  records.any (fun r => (r.lookup k).isSome)

/-- The derived numeric column `_presmpt_num` of `src/app.py` at record
`r` of the normalized frame `records`: when the `presmptPrce` column
exists, `pd.to_numeric(str(value) stripped of non-digits, errors="coerce")
.fillna(0)` per record (a missing cell stringifies to "nan" and hence to
0); when the column is absent from every record, the constant 0. -/
def derived_price (records : List BidRecord) (r : BidRecord) : Nat :=
  if has_column records "presmptPrce" then
    match r.lookup "presmptPrce" with
    | some v =>
      let d := (pyStr v).toList.filter Char.isDigit
      if d = [] then 0 else natOfDigits d
    | none => 0
  else 0

/-- `f"{n:,}"`: insert a comma after every group of three digits, counted
from the right; the input is the reversed digit list. -/
def commaGroupRev : List Char → List Char
  | [] => []
  | [a] => [a]
  | [a, b] => [a, b]
  | [a, b, c] => [a, b, c]
  | a :: b :: c :: d :: rest => a :: b :: c :: ',' :: commaGroupRev (d :: rest)

/-- `f"{n:,}"` / `f"{x:,.0f}"` for the (integral) numbers the pipeline
formats: decimal digits grouped in threes by commas. -/
def commaFormat (n : Nat) : String :=
  ((commaGroupRev (toString n).toList.reverse).reverse).asString

/-- `pandas .str.contains(needle)` on a stringified cell (the needle the
code uses carries no regex metacharacter, so this is substring search). -/
def str_contains (hay : String) (needle : String) : Bool :=
  hay.toList.tails.any (fun t => needle.toList.isPrefixOf t)

/-- Whether a record's stringified `cntrctCnclsMthdNm` cell contains the
negotiated-contract marker `"수의"`; a record without the field is a NaN
cell, stringified to "nan", which does not contain the marker. -/
def contains_marker (r : BidRecord) : Bool :=
  match r.lookup "cntrctCnclsMthdNm" with
  | some v => str_contains (pyStr v) "수의"
  | none => false

/-- The price-range filter of `src/app.py` (lines 238-246) together with
its log lines: the derived numeric column is compared against each bound
that `parse_money` turns into a value; a bound parsing to `None` filters
nothing and logs nothing. -/
def price_filter_stage (records : List BidRecord) (min_price max_price : Option String) :
    List BidRecord × List String :=
  let r1 :=
    match parse_money min_price with
    | some m =>
      (records.filter (fun r => m ≤ derived_price records r),
       ["🔻 최소 기초금액 이상 필터: " ++ commaFormat m ++ "원"])
    | none => (records, [])
  match parse_money max_price with
  | some m =>
    (r1.1.filter (fun r => derived_price records r ≤ m),
     r1.2 ++ ["🔺 최대 기초금액 이하 필터: " ++ commaFormat m ++ "원"])
  | none => r1

/-- The contract-method filter of `src/app.py` (lines 249-259) with its
log line. `has_col` is `"cntrctCnclsMthdNm" in df.columns`, computed on
the frame the pipeline built from all extracted items. -/
def contract_filter_stage (has_col : Bool) (records : List BidRecord) (cf : String) :
    List BidRecord × String :=
  if has_col then
    if cf = "only_private" then
      (records.filter contains_marker, "✅ 계약방법 필터: 수의계약만")
    else if cf = "exclude_private" then
      (records.filter (fun r => !contains_marker r), "✅ 계약방법 필터: 수의계약 제외")
    else
      (records, "✅ 계약방법 필터: 전체")
  else
    (records, "⚠ cntrctCnclsMthdNm 컬럼 없음 (계약방법 필터 미적용)")

/-- The search criteria handed to `search_bids` by the UI layer. Dates are
already-formatted strings (a `date` object always stringifies to a
non-blank `YYYY-MM-DD`); `none` models Python `None`. -/
structure SearchCriteria where
  start_date : Option String
  end_date : Option String
  inqry_div : Nat
  bid_name : String
  industry_name : String
  region_code : String
  min_price : Option String
  max_price : Option String
  contract_filter : String
  page_no : Nat
  num_rows : Nat

/-- `normalize_date_str` of `src/app.py` for string/None input: empty or
absent gives `""`, otherwise the stripped string. -/
def normalize_date_str (d : Option String) : String :=
  match d with
  | none => ""
  | some s => if s = "" then "" else pyStrip s

/-- `s.replace("-", "")`: with a one-character pattern and empty
replacement this deletes every dash. -/
def removeDashes (s : String) : String :=
  (s.toList.filter (fun c => c ≠ '-')).asString

/-- The query-parameter list built by `search_bids` (lines 167-196), in
insertion order: five always-present entries, then one conditional entry
per criterion the code decides to send. -/
def build_params (c : SearchCriteria) (service_key : String) : List (String × String) :=
  let start_str := normalize_date_str c.start_date
  let end_str := normalize_date_str c.end_date
  let inqry_bgn := if start_str ≠ "" then removeDashes start_str ++ "0000" else ""
  let inqry_end := if end_str ≠ "" then removeDashes end_str ++ "2359" else ""
  let rc := pyStrip c.region_code
  [("serviceKey", service_key),
   ("pageNo", toString c.page_no),
   ("numOfRows", toString c.num_rows),
   ("inqryDiv", toString c.inqry_div),
   ("type", "json")]
  ++ (if inqry_bgn ≠ "" then [("inqryBgnDt", inqry_bgn)] else [])
  ++ (if inqry_end ≠ "" then [("inqryEndDt", inqry_end)] else [])
  ++ (if c.bid_name ≠ "" then [("bidNtceNm", pyStrip c.bid_name)] else [])
  ++ (if c.industry_name ≠ "" then [("indstrytyNm", pyStrip c.industry_name)] else [])
  ++ (if rc ≠ "" then
        [("prtcptLmtRgnCd", if rc.length = 1 then "0" ++ rc else rc)]
      else [])

/-- `"\n".join(lines)`. -/
def join_lines : List String → String
  | [] => ""
  | [l] => l
  | l :: ls => l ++ "\n" ++ join_lines ls

/-- `s[:n]` on a Python string. -/
def takeChars (n : Nat) (s : String) : String := (s.toList.take n).asString

/-- The observable outcome of the one `requests.get` call: the call raised
(`exn`), or returned a status, a raw text, and — when `resp.json()`
succeeds — the decoded body (`none` models a `json.JSONDecodeError`). -/
inductive HttpOutcome where
  | exn : String → HttpOutcome
  | response : Nat → String → Option Json → HttpOutcome

/-- `data.get("response", {}).get("header", {})` followed by
`.get("resultCode")` / `.get("resultMsg")`: `some (code, msg)` when the
chain runs without raising, `none` when some `.get` receiver is not a
dictionary (an `AttributeError`, caught by the outer handler). -/
def header_fields (data : Json) : Option (Json × Json) :=
  match dict_get data "response" (Json.obj []) with
  | none => none
  | some respObj =>
    match dict_get respObj "header" (Json.obj []) with
    | none => none
    | some (Json.obj hf) =>
      some ((hf.lookup "resultCode").getD Json.null, (hf.lookup "resultMsg").getD Json.null)
    | some _ => none

/-- Python `code == "00"` for the value read out of the header: true only
for the literal string `"00"`. -/
def is_success_code (code : Json) : Bool :=
  match code with
  | Json.str s => s = "00"
  | _ => false

/-- `pd.json_normalize` on one item: the field list of an object; a
non-object item makes the call raise. -/
def json_to_record : Json → Option BidRecord
  | Json.obj fs => some fs
  | _ => none

/-- The fixed display column list `prefer_cols` of `src/app.py`. -/
def prefer_cols : List String :=
  ["bidNtceNo", "bidNtceOrd", "bidNtceNm", "ntceInsttNm", "pblancDate", "opengDt",
   "indstrytyNm", "presmptPrce", "prtcptLmtRgnCd", "prtcptLmtRgnNm", "cntrctCnclsMthdNm"]

/-- The localization map `col_map` of `src/app.py`. -/
def col_map : List (String × String) :=
  [("bidNtceNo", "공고번호"), ("bidNtceOrd", "공고차수"), ("bidNtceNm", "공고명"),
   ("ntceInsttNm", "공고기관"), ("pblancDate", "공고게시일시"), ("opengDt", "개찰일시"),
   ("indstrytyNm", "업종명"), ("presmptPrce", "기초금액"), ("prtcptLmtRgnCd", "참가제한지역코드"),
   ("prtcptLmtRgnNm", "참가제한지역명"), ("cntrctCnclsMthdNm", "계약방법")]

/-- Rename one column to its display label (columns outside the map keep
their name). -/
def rename_col (k : String) : String := (col_map.lookup k).getD k

/-- One row of `df_view`: the record projected onto the existing preferred
columns, the price column re-rendered from the derived numeric value as a
thousands-grouped integer, keys localized. A cell the record lacks is the
frame's NaN, modelled `Json.null`. -/
def project_record (origRecords : List BidRecord) (exist : List String) (r : BidRecord) :
    DisplayRow :=
  exist.map (fun k =>
    (rename_col k,
     if k = "presmptPrce" then Json.str (commaFormat (derived_price origRecords r))
     else (r.lookup k).getD Json.null))

/-- The body of `search_bids` from the decoded JSON onwards (lines
213-312). `Except`: `.error (logs, m)` is an exception raised at a point
where `log_lines` holds `logs`, absorbed by the outer `try/except`;
`.ok` is a normal return of the joined log and the rows. -/
def search_body (c : SearchCriteria) (data : Json) :
    Except (List String × String) (String × List DisplayRow) :=
  let l1 := ["📎 나라장터 API 요청 완료"]
  match header_fields data with
  | none => Except.error (l1, "AttributeError")
  | some (code, msg) =>
    let l2 := l1 ++ ["API 응답 코드: " ++ pyStr code ++ ", 메시지: " ++ pyStr msg]
    if !is_success_code code then
      Except.ok (join_lines (l2 ++ ["❌ 조건 불충족 또는 파라미터 오류"]), [])
    else
      let items := safe_get_items data
      if items.isEmpty then
        Except.ok (join_lines (l2 ++ ["⚠ 검색 조건에 해당하는 데이터 없음"]), [])
      else
        match items.mapM json_to_record with
        | none => Except.error (l2, "AttributeError")
        | some records =>
          let pf := price_filter_stage records c.min_price c.max_price
          let l3 := l2 ++ pf.2
          let cfst := contract_filter_stage (has_column records "cntrctCnclsMthdNm") pf.1
                        c.contract_filter
          let l4 := l3 ++ [cfst.2]
          if cfst.1.isEmpty then
            Except.ok (join_lines (l4 ++ ["⚠ 필터 적용 후 남은 공고 없음"]), [])
          else
            let exist := prefer_cols.filter (fun k => has_column records k)
            let rows := cfst.1.map (project_record records exist)
            Except.ok
              (join_lines (l4 ++ ["📊 공고 건수(모든 필터 적용 후): " ++
                 toString rows.length ++ "건"]), rows)

/-- `search_bids` of `src/app.py`: the whole pipeline, from the credential
check through the HTTP call (the oracle `http`, applied to the built
parameter list) to the final (log, rows) pair. Every raised exception ends
in the outer handler, which appends the 💥 marker line. -/
def search_bids (service_key : String) (c : SearchCriteria)
    (http : List (String × String) → HttpOutcome) : String × List DisplayRow :=
  if service_key = "" then ("❌ SERVICE_KEY가 설정되지 않았습니다.", [])
  else
    match http (build_params c service_key) with
    | HttpOutcome.exn e => (join_lines ["💥 예외 발생: " ++ e], [])
    | HttpOutcome.response st text body =>
      if st ≠ 200 then
        (join_lines ["📎 나라장터 API 요청 완료", "❌ HTTP 오류: " ++ toString st], [])
      else
        match body with
        | none =>
          (join_lines ["📎 나라장터 API 요청 완료", "❌ JSON 파싱 실패", takeChars 200 text], [])
        | some data =>
          match search_body c data with
          | Except.ok r => r
          | Except.error (logs, m) => (join_lines (logs ++ ["💥 예외 발생: " ++ m]), [])

/-- A record whose derived price is 0 (claim C4 example data). -/
def exR1 : BidRecord := [("presmptPrce", Json.str "0")]

/-- A record whose derived price is 50 000 000 (claim C4 example data). -/
def exR2 : BidRecord := [("presmptPrce", Json.str "50,000,000")]

/-- A record whose derived price is 100 000 000 (claim C4 example data). -/
def exR3 : BidRecord := [("presmptPrce", Json.str "100000000")]

/-- A record whose derived price is 300 000 000 (claim C4 example data). -/
def exR4 : BidRecord := [("presmptPrce", Json.str "300000000")]

/-- A record of an open-competition contract (claim C5 example data). -/
def exRA : BidRecord := [("cntrctCnclsMthdNm", Json.str "일반경쟁")]

/-- A record of a negotiated contract (claim C5 example data). -/
def exRB : BidRecord := [("cntrctCnclsMthdNm", Json.str "수의계약")]

/-- A record of a small-amount negotiated contract (claim C5 example data). -/
def exRC : BidRecord := [("cntrctCnclsMthdNm", Json.str "수의계약(소액)")]

/-- Criteria with a whitespace-only title keyword and everything else
empty: the input on which claim C3 fails. -/
def c_blank : SearchCriteria :=
  { start_date := none, end_date := none, inqry_div := 1, bid_name := " ",
    industry_name := "", region_code := "", min_price := none, max_price := none,
    contract_filter := "all", page_no := 1, num_rows := 100 }

/-- Criteria with every optional field empty, used to instantiate
universally quantified theorems at a concrete input. -/
def c_empty : SearchCriteria :=
  { start_date := none, end_date := none, inqry_div := 1, bid_name := "",
    industry_name := "", region_code := "", min_price := none, max_price := none,
    contract_filter := "all", page_no := 1, num_rows := 100 }

/-- A concrete decoded success envelope whose header carries the failure
code "99" (witness data for claim C7). -/
def data99 : Json :=
  Json.obj [("response", Json.obj
    [("header", Json.obj [("resultCode", Json.str "99"),
                          ("resultMsg", Json.str "ERROR")])])]

-- ===================================================================
-- Lemmas
-- ===================================================================

/-- A whitespace character is not a digit. -/
theorem ws_not_digit (ch : Char) (h : ch.isWhitespace = true) : ch.isDigit = false := by
  simp only [Char.isWhitespace] at h
  rcases Bool.or_eq_true_iff.mp h with h1 | h1
  · rcases Bool.or_eq_true_iff.mp h1 with h2 | h2
    · rcases Bool.or_eq_true_iff.mp h2 with h3 | h3
      · simp only [decide_eq_true_eq] at h3; subst h3; decide
      · simp only [decide_eq_true_eq] at h3; subst h3; decide
    · simp only [decide_eq_true_eq] at h2; subst h2; decide
  · simp only [decide_eq_true_eq] at h1; subst h1; decide

/-- Dropping leading whitespace does not change the digit characters. -/
theorem filter_digit_dropWhile_ws (l : List Char) :
    (l.dropWhile Char.isWhitespace).filter Char.isDigit = l.filter Char.isDigit := by
  induction l with
  | nil => rfl
  | cons a t ih =>
    by_cases ha : a.isWhitespace = true
    · rw [List.dropWhile_cons_of_pos ha, ih, List.filter_cons_of_neg]
      simp [ws_not_digit a ha]
    · rw [List.dropWhile_cons_of_neg (by simp [ha])]

/-- Stripping whitespace from both ends does not change the digit
characters. -/
theorem filter_digit_stripChars (l : List Char) :
    (stripChars l).filter Char.isDigit = l.filter Char.isDigit := by
  unfold stripChars
  rw [List.filter_reverse, filter_digit_dropWhile_ws, List.filter_reverse,
    filter_digit_dropWhile_ws, List.reverse_reverse]

/-- `parse_money` on a string is fully determined by its digit characters:
none where there is no digit, otherwise their number. -/
theorem parse_money_eq_digits (s : String) :
    parse_money (some s) =
      if digitsOf s = [] then none else some (natOfDigits (digitsOf s)) := by
  have hf := filter_digit_stripChars s.toList
  have hun : parse_money (some s) =
      (if stripChars s.toList = [] then none
       else if List.filter Char.isDigit (stripChars s.toList) = [] then none
       else some (natOfDigits (List.filter Char.isDigit (stripChars s.toList)))) := rfl
  rw [hun]
  unfold digitsOf
  by_cases h : stripChars s.toList = []
  · have hd : List.filter Char.isDigit s.toList = [] := by rw [← hf, h]; rfl
    rw [if_pos h, if_pos hd]
  · rw [if_neg h, hf]

/-- C2: the money normalizer returns no value exactly when the input is
None, empty, or has no digit character once all non-digits are stripped,
and otherwise the number written by the remaining digit characters; the
claim's test vectors evaluate accordingly. -/
theorem parse_money_correct :
    parse_money none = none ∧
    (∀ s : String, parse_money (some s) =
      if digitsOf s = [] then none else some (natOfDigits (digitsOf s))) ∧
    parse_money (some "") = none ∧
    parse_money (some "   ") = none ∧
    parse_money (some "1,234,567") = some 1234567 ∧
    parse_money (some "  9 8 7  ") = some 987 ∧
    parse_money (some "abc") = none :=
  ⟨rfl, parse_money_eq_digits, by decide, by decide, by decide, by decide, by decide⟩

/-- Appending strings concatenates their digit characters. -/
theorem digitsOf_append (a b : String) : digitsOf (a ++ b) = digitsOf a ++ digitsOf b := by
  unfold digitsOf
  have h1 : (a ++ b).toList = a.toList ++ b.toList := String.data_append a b
  rw [h1, List.filter_append]

/-- C10: the normalizer strips a decimal point like any other non-digit,
so a value with a fractional part parses to the concatenation of its
digits: "1.5" gives 15 (neither 1 nor no value), in `parse_money` and in
the per-record derived price alike. -/
theorem decimal_digits_concatenated :
    (∀ a b : String, digitsOf (a ++ "." ++ b) = digitsOf a ++ digitsOf b) ∧
    (∀ a b : String, parse_money (some (a ++ "." ++ b)) = parse_money (some (a ++ b))) ∧
    parse_money (some "1.5") = some 15 ∧
    parse_money (some "1.5") ≠ some 1 ∧
    parse_money (some "1.5") ≠ none ∧
    derived_price [[("presmptPrce", Json.str "1.5")]] [("presmptPrce", Json.str "1.5")] = 15 := by
  have hdot : ∀ a b : String, digitsOf (a ++ "." ++ b) = digitsOf a ++ digitsOf b := by
    intro a b
    rw [digitsOf_append, digitsOf_append]
    have : digitsOf "." = [] := by decide
    rw [this, List.append_nil]
  refine ⟨hdot, ?_, by decide, by decide, by decide, by decide⟩
  intro a b
  rw [parse_money_eq_digits, parse_money_eq_digits, hdot, digitsOf_append]

/-- C9: with a blank credential the pipeline reports the missing key and an
empty table, and its result does not depend on the transport at all — no
request is issued. -/
theorem blank_key_short_circuits :
    (∀ (c : SearchCriteria) (http : List (String × String) → HttpOutcome),
        search_bids "" c http = ("❌ SERVICE_KEY가 설정되지 않았습니다.", [])) ∧
    (∀ (c : SearchCriteria) (http1 http2 : List (String × String) → HttpOutcome),
        search_bids "" c http1 = search_bids "" c http2) := by
  refine ⟨fun c http => rfl, fun c http1 http2 => rfl⟩

/-- C1: `safe_get_items` realizes exactly the tolerant extraction the spec
describes — empty for an absent or false-like `items`, a list verbatim, a
wrapped `item` list, a singleton for a lone `item` mapping, and empty for
every other shape or traversal error, never raising. -/
theorem safe_get_items_matches_spec (j : Json) :
    safe_get_items j = extract_items_spec j := by
  cases j with
  | obj f1 =>
    simp only [safe_get_items, extract_items_spec, dict_get]
    cases h1 : f1.lookup "response" with
    | none => rfl
    | some r =>
      simp only [Option.getD_some]
      cases r with
      | obj f2 =>
        simp only [dict_get]
        cases h2 : f2.lookup "body" with
        | none => rfl
        | some b =>
          simp only [Option.getD_some]
          cases b with
          | obj f3 =>
            simp only []
            cases h3 : f3.lookup "items" with
            | none => rfl
            | some items => rfl
          | null => rfl
          | bool x => rfl
          | num x => rfl
          | str x => rfl
          | arr x => rfl
      | null => rfl
      | bool x => rfl
      | num x => rfl
      | str x => rfl
      | arr x => rfl
  | null => rfl
  | bool b => rfl
  | num n => rfl
  | str s => rfl
  | arr xs => rfl

/-- C4: the price-range filter keeps exactly the records whose derived
price is at least each parsed minimum and at most each parsed maximum; a
bound that parses to no value constrains nothing; on the claim's example
data (derived prices 0, 50000000, 100000000, 300000000) with bounds
100000000 and 300000000 exactly the last two records remain. -/
theorem price_filter_range_correct :
    (∀ (records : List BidRecord) (mn mx : Option String) (r : BidRecord),
      r ∈ (price_filter_stage records mn mx).1 ↔
        (r ∈ records ∧
         (∀ m, parse_money mn = some m → m ≤ derived_price records r) ∧
         (∀ m, parse_money mx = some m → derived_price records r ≤ m))) ∧
    (price_filter_stage [exR1, exR2, exR3, exR4] (some "100000000") (some "300000000")).1
      = [exR3, exR4] := by
  constructor
  · intro records mn mx r
    unfold price_filter_stage
    cases hmn : parse_money mn <;> cases hmx : parse_money mx <;>
      simp [List.mem_filter, and_assoc] <;> tauto
  · rfl

/-- C5: with the contract-method column absent the filter is skipped and
the log says so; otherwise only_private keeps exactly the records whose
text contains the marker "수의", exclude_private exactly those whose text
does not, and any other mode keeps all; a record without the field never
contains the marker (it raises nothing, is dropped by only_private and
kept by exclude_private); the claim's three example texts land
accordingly. -/
theorem contract_filter_correct :
    (∀ (records : List BidRecord) (cf : String),
      has_column records "cntrctCnclsMthdNm" = false →
      contract_filter_stage (has_column records "cntrctCnclsMthdNm") records cf
        = (records, "⚠ cntrctCnclsMthdNm 컬럼 없음 (계약방법 필터 미적용)")) ∧
    (∀ (records : List BidRecord) (r : BidRecord),
      r ∈ (contract_filter_stage true records "only_private").1 ↔
        (r ∈ records ∧ contains_marker r = true)) ∧
    (∀ (records : List BidRecord) (r : BidRecord),
      r ∈ (contract_filter_stage true records "exclude_private").1 ↔
        (r ∈ records ∧ contains_marker r = false)) ∧
    (∀ (records : List BidRecord) (cf : String),
      cf ≠ "only_private" → cf ≠ "exclude_private" →
      (contract_filter_stage true records cf).1 = records) ∧
    (∀ r : BidRecord, r.lookup "cntrctCnclsMthdNm" = none → contains_marker r = false) ∧
    (contract_filter_stage true [exRA, exRB, exRC] "only_private").1 = [exRB, exRC] ∧
    (contract_filter_stage true [exRA, exRB, exRC] "exclude_private").1 = [exRA] ∧
    (contract_filter_stage true [exRA, exRB, exRC] "all").1 = [exRA, exRB, exRC] := by
  refine ⟨?_, ?_, ?_, ?_, ?_, ?_, ?_, ?_⟩
  · intro records cf h
    rw [h]
    rfl
  · intro records r
    simp [contract_filter_stage, List.mem_filter]
  · intro records r
    simp [contract_filter_stage, List.mem_filter]
  · intro records cf h1 h2
    simp [contract_filter_stage, h1, h2]
  · intro r h
    simp [contains_marker, h]
  · rfl
  · rfl
  · rfl

/-- C8: the derived numeric price equals the number written by the digit
characters of the record's stringified base-price field, and is 0 when
the column is absent from every record, when the record itself lacks the
field, or when the value strips to no digits — a missing or corrupt price
never excludes a record by itself. -/
theorem derived_price_correct :
    (∀ (records : List BidRecord) (r : BidRecord) (v : Json),
      r ∈ records → r.lookup "presmptPrce" = some v →
      derived_price records r =
        (if (pyStr v).toList.filter Char.isDigit = [] then 0
         else natOfDigits ((pyStr v).toList.filter Char.isDigit))) ∧
    (∀ (records : List BidRecord) (r : BidRecord),
      has_column records "presmptPrce" = false → derived_price records r = 0) ∧
    (∀ (records : List BidRecord) (r : BidRecord),
      r.lookup "presmptPrce" = none → derived_price records r = 0) := by
  refine ⟨?_, ?_, ?_⟩
  · intro records r v hr hv
    have hcol : has_column records "presmptPrce" = true := by
      unfold has_column
      rw [List.any_eq_true]
      exact ⟨r, hr, by rw [hv]; rfl⟩
    simp only [derived_price, hcol, if_true, hv]
  · intro records r h
    simp only [derived_price, h]
    rfl
  · intro records r h
    unfold derived_price
    cases hcol : has_column records "presmptPrce" <;> simp [h]

/-- Appending the literal time suffix `0000` never yields an empty string. -/
theorem suffix0000_ne (a : String) : ¬(removeDashes a ++ "0000" = "") := by
  intro h
  have hd := congrArg String.data h
  rw [String.data_append] at hd
  have h2 : ("0000" : String).data = [] := (List.append_eq_nil.mp hd).2
  exact absurd h2 (by decide)

/-- Appending the literal time suffix `2359` never yields an empty string. -/
theorem suffix2359_ne (a : String) : ¬(removeDashes a ++ "2359" = "") := by
  intro h
  have hd := congrArg String.data h
  rw [String.data_append] at hd
  have h2 : ("2359" : String).data = [] := (List.append_eq_nil.mp hd).2
  exact absurd h2 (by decide)

set_option maxHeartbeats 2000000 in
/-- C3 counterexample: a whitespace-only title keyword is a blank
criterion, yet the built parameter mapping carries `bidNtceNm` with an
empty value instead of omitting it — the claim fails as stated. -/
theorem blank_keyword_sent_as_empty :
    c_blank.bid_name ≠ "" ∧
    pyStrip c_blank.bid_name = "" ∧
    (build_params c_blank "KEY").lookup "bidNtceNm" = some "" := by
  exact ⟨by decide, rfl, rfl⟩

set_option maxHeartbeats 2000000 in
/-- C3 (amended): for every criteria set and non-blank credential the
parameter mapping holds exactly the five always-present entries plus, per
criterion: the start/end timestamps when the date is non-blank, the
trimmed title and industry keywords when the raw keyword is non-empty (a
whitespace-only keyword is therefore sent with an empty value), and the
trimmed, zero-padded region code when the region code is non-blank; no
other key occurs. -/
theorem build_params_characterization (c : SearchCriteria) (key : String) (hk : key ≠ "") :
    ((build_params c key).lookup "serviceKey" = some key) ∧
    ((build_params c key).lookup "pageNo" = some (toString c.page_no)) ∧
    ((build_params c key).lookup "numOfRows" = some (toString c.num_rows)) ∧
    ((build_params c key).lookup "inqryDiv" = some (toString c.inqry_div)) ∧
    ((build_params c key).lookup "type" = some "json") ∧
    ((build_params c key).lookup "inqryBgnDt" =
      (if normalize_date_str c.start_date = "" then none
       else some (removeDashes (normalize_date_str c.start_date) ++ "0000"))) ∧
    ((build_params c key).lookup "inqryEndDt" =
      (if normalize_date_str c.end_date = "" then none
       else some (removeDashes (normalize_date_str c.end_date) ++ "2359"))) ∧
    ((build_params c key).lookup "bidNtceNm" =
      (if c.bid_name = "" then none else some (pyStrip c.bid_name))) ∧
    ((build_params c key).lookup "indstrytyNm" =
      (if c.industry_name = "" then none else some (pyStrip c.industry_name))) ∧
    ((build_params c key).lookup "prtcptLmtRgnCd" =
      (if pyStrip c.region_code = "" then none
       else some (if (pyStrip c.region_code).length = 1
                  then "0" ++ pyStrip c.region_code else pyStrip c.region_code))) ∧
    (∀ k v, (k, v) ∈ build_params c key →
      k ∈ ["serviceKey", "pageNo", "numOfRows", "inqryDiv", "type", "inqryBgnDt",
           "inqryEndDt", "bidNtceNm", "indstrytyNm", "prtcptLmtRgnCd"]) := by
  clear hk
  by_cases h1 : normalize_date_str c.start_date = "" <;>
  by_cases h2 : normalize_date_str c.end_date = "" <;>
  by_cases h3 : c.bid_name = "" <;>
  by_cases h4 : c.industry_name = "" <;>
  by_cases h5 : pyStrip c.region_code = "" <;>
    simp [build_params, h1, h2, h3, h4, h5, List.lookup, suffix0000_ne, suffix2359_ne] <;>
    tauto

/-- C3 witness: the amended characterization applied at empty criteria and
the concrete credential "KEY". -/
theorem build_params_characterization_witness :
    (build_params c_empty "KEY").lookup "serviceKey" = some "KEY" :=
  (build_params_characterization c_empty "KEY" (by decide)).1

/-- A value passing the success test is the literal string "00". -/
theorem success_code_eq (code : Json) (h : is_success_code code = true) :
    code = Json.str "00" := by
  cases code <;> simp [is_success_code] at h
  rw [h]

/-- A value other than the literal string "00" fails the success test. -/
theorem not_success_code (code : Json) (h : code ≠ Json.str "00") :
    is_success_code code = false := by
  cases code <;> simp [is_success_code]
  intro heq
  exact absurd (congrArg Json.str heq) h

/-- A normal `search_body` return with surviving rows can only come out of
a successful result code and a non-empty extracted item list. -/
theorem search_body_nonempty (c : SearchCriteria) (data : Json) (log : String)
    (rows : List DisplayRow) (h : search_body c data = Except.ok (log, rows))
    (hne : rows ≠ []) :
    (∃ m, header_fields data = some (Json.str "00", m)) ∧ safe_get_items data ≠ [] := by
  unfold search_body at h
  split at h
  · exact absurd h (by simp)
  · rename_i code msg heq
    split at h
    · rename_i hsc
      simp only [Except.ok.injEq, Prod.mk.injEq] at h
      exact absurd h.2.symm hne
    · rename_i hsc
      have hcode : code = Json.str "00" :=
        success_code_eq code (by revert hsc; cases is_success_code code <;> simp)
      simp only [] at h
      split at h
      · rename_i hempty
        simp only [Except.ok.injEq, Prod.mk.injEq] at h
        exact absurd h.2.symm hne
      · rename_i hempty
        have hitems : safe_get_items data ≠ [] := by
          intro hnil
          rw [hnil] at hempty
          exact hempty rfl
        refine ⟨⟨msg, by rw [heq, hcode]⟩, hitems⟩

/-- C6: the pipeline absorbs every error kind: a non-empty result table
can only arise from a fully successful run (non-blank key, HTTP 200,
parsed body, result code "00", non-empty items), so transport failures,
bad statuses, parse failures, bad result codes and empty results all
return an empty table; and both the transport exception and any exception
raised inside the body come back as a log ending in the generic 💥 marker
with an empty table — nothing propagates to the caller. -/
theorem search_bids_absorbs_errors (key : String) (c : SearchCriteria)
    (http : List (String × String) → HttpOutcome) :
    ((search_bids key c http).2 ≠ [] →
      key ≠ "" ∧ ∃ st text data,
        http (build_params c key) = HttpOutcome.response st text (some data) ∧
        st = 200 ∧ (∃ m, header_fields data = some (Json.str "00", m)) ∧
        safe_get_items data ≠ []) ∧
    (∀ e, key ≠ "" → http (build_params c key) = HttpOutcome.exn e →
      search_bids key c http = ("💥 예외 발생: " ++ e, [])) ∧
    (∀ st text data logs m, key ≠ "" →
      http (build_params c key) = HttpOutcome.response st text (some data) → st = 200 →
      search_body c data = Except.error (logs, m) →
      search_bids key c http = (join_lines (logs ++ ["💥 예외 발생: " ++ m]), [])) ∧
    (∀ st text body, key ≠ "" →
      http (build_params c key) = HttpOutcome.response st text body → st ≠ 200 →
      search_bids key c http =
        (join_lines ["📎 나라장터 API 요청 완료", "❌ HTTP 오류: " ++ toString st], [])) ∧
    (∀ st text, key ≠ "" →
      http (build_params c key) = HttpOutcome.response st text none → st = 200 →
      search_bids key c http =
        (join_lines ["📎 나라장터 API 요청 완료", "❌ JSON 파싱 실패", takeChars 200 text], [])) := by
  refine ⟨?_, ?_, ?_, ?_, ?_⟩
  · intro h2
    by_cases hkey : key = ""
    · subst hkey
      exact absurd rfl h2
    · refine ⟨hkey, ?_⟩
      cases hout : http (build_params c key) with
      | exn e =>
        exfalso
        apply h2
        simp [search_bids, hkey, hout]
      | response st text body =>
        by_cases hst : st = 200
        · subst hst
          cases body with
          | none =>
            exfalso
            apply h2
            simp [search_bids, hkey, hout]
          | some data =>
            cases hsb : search_body c data with
            | error lm =>
              exfalso
              apply h2
              simp [search_bids, hkey, hout, hsb]
            | ok r =>
              obtain ⟨log, rows⟩ := r
              have hres : search_bids key c http = (log, rows) := by
                simp [search_bids, hkey, hout, hsb]
              rw [hres] at h2
              obtain ⟨hok, hitems⟩ := search_body_nonempty c data log rows hsb h2
              exact ⟨200, text, data, rfl, rfl, hok, hitems⟩
        · exfalso
          apply h2
          simp [search_bids, hkey, hout, hst]
  · intro e hkey hout
    simp [search_bids, hkey, hout, join_lines]
  · intro st text data logs m hkey hout hst hsb
    subst hst
    simp [search_bids, hkey, hout, hsb]
  · intro st text body hkey hout hst
    simp [search_bids, hkey, hout, hst]
  · intro st text hkey hout hst
    subst hst
    simp [search_bids, hkey, hout]

/-- C6 witness: a concrete transport failure is absorbed into the marker
log line and an empty table. -/
theorem search_bids_absorbs_errors_witness :
    search_bids "KEY" c_empty (fun _ => HttpOutcome.exn "boom")
      = ("💥 예외 발생: " ++ "boom", []) :=
  (search_bids_absorbs_errors "KEY" c_empty (fun _ => HttpOutcome.exn "boom")).2.1
    "boom" (by decide) rfl

/-- C7: a parsed response whose header result code differs from the
literal "00" produces an empty table, and the returned log is the join of
lines among which sits the line carrying the code and message read from
the header, followed by the failure line — item extraction is never
reached. -/
theorem nonsuccess_code_returns_empty (key : String) (c : SearchCriteria)
    (http : List (String × String) → HttpOutcome) (st : Nat) (text : String)
    (data code msg : Json)
    (hk : key ≠ "")
    (hhttp : http (build_params c key) = HttpOutcome.response st text (some data))
    (hst : st = 200)
    (hhdr : header_fields data = some (code, msg))
    (hcode : code ≠ Json.str "00") :
    (search_bids key c http).2 = [] ∧
    (search_bids key c http).1 =
      join_lines ["📎 나라장터 API 요청 완료",
        "API 응답 코드: " ++ pyStr code ++ ", 메시지: " ++ pyStr msg,
        "❌ 조건 불충족 또는 파라미터 오류"] ∧
    (∃ before after, (search_bids key c http).1 =
      join_lines (before ++ ["API 응답 코드: " ++ pyStr code ++ ", 메시지: " ++ pyStr msg]
        ++ after)) := by
  subst hst
  have hnsc : is_success_code code = false := not_success_code code hcode
  have hres : search_bids key c http =
      (join_lines ["📎 나라장터 API 요청 완료",
        "API 응답 코드: " ++ pyStr code ++ ", 메시지: " ++ pyStr msg,
        "❌ 조건 불충족 또는 파라미터 오류"], []) := by
    simp [search_bids, hk, hhttp, search_body, hhdr, hnsc]
  refine ⟨by rw [hres], by rw [hres], ?_⟩
  refine ⟨["📎 나라장터 API 요청 완료"], ["❌ 조건 불충족 또는 파라미터 오류"], ?_⟩
  rw [hres]
  rfl


/-- C7 witness: the theorem applied to a concrete parsed envelope whose
result code is "99". -/
theorem nonsuccess_code_returns_empty_witness :
    (search_bids "KEY" c_empty
      (fun _ => HttpOutcome.response 200 "raw" (some data99))).2 = [] :=
  (nonsuccess_code_returns_empty "KEY" c_empty
    (fun _ => HttpOutcome.response 200 "raw" (some data99)) 200 "raw" data99
    (Json.str "99") (Json.str "ERROR") (by decide) rfl rfl rfl (by simp)).1
